import Mathlib

/-!
# Verification of the fibber BERT-classifier training / defense pipeline

Shallow embedding of `fibber/metrics/bert_classifier.py`:
the optimizer/schedule factory (`get_optimizer`), the evaluation routine
(`run_evaluate`), the training loop (`load_or_train_bert_clf`), and the
`BertClassifier` facade operations (`predict_dist_batch`, `robust_tune_init`,
`robust_tune_step`).

External tensor computation (model forward passes, losses, logits) is
abstracted as parameters of the embedding: each training / validation step is
described by the batch size, the number of correct predictions, and the loss
produced at that step.  Filesystem paths are modelled as lists of character
codes (`Str`), as built by `os.path.join` and Python `%`-formatting.
-/

namespace Fibber

/-- Strings of the path layer: lists of character codes. -/
abbrev Str := List Nat

/-- `model.train()` / `model.eval()` mode of a torch module. -/
inductive Mode where
  | train
  | eval
deriving DecidableEq, Repr

/-! ## Decimal formatting (Python `"%04dk" % (step // 1000)`) -/

/-- Decimal digits of `n`, most significant first; empty for `0`.
Mirrors the digit expansion performed by Python integer formatting. -/
def natDigits : Nat → List Nat
  | 0 => []
  | n + 1 => natDigits ((n + 1) / 10) ++ [(n + 1) % 10]
decreasing_by exact Nat.div_lt_self (Nat.succ_pos n) (by omega)

/-- Decimal digit list of `n` as printed by `%d`: `[0]` for zero. -/
def reprDigits (n : Nat) : List Nat :=
  if n = 0 then [0] else natDigits n

/-- The digit list produced by Python `"%04d" % n`: zero-padded on the left
to a minimum width of 4. -/
def fmt04 (n : Nat) : List Nat :=
  List.replicate (4 - (reprDigits n).length) 0 ++ reprDigits n

/-- Character codes of `"%04d" % n` (digit `d` prints as code `48 + d`). -/
def fmt04Str (n : Nat) : Str :=
  (fmt04 n).map (fun d => 48 + d)

/-- Value of a digit list read most-significant-first. -/
def digitsVal (l : List Nat) : Nat :=
  l.foldl (fun a d => 10 * a + d) 0

/-! ## Checkpoint Store: path resolution (`load_or_train_bert_clf`, lines 133-138) -/

/-- Character codes of a Lean string literal, used to spell the fixed path
components of the source. -/
def codes (s : String) : Str :=
  s.toList.map Char.toNat

/-- `os.path.join a b` for the absolute-free components used in the source. -/
def pathJoin (a b : Str) : Str :=
  a ++ [47] ++ b

/-- The model directory: `<root>/bert_clf_sem/<dataset>` when the SEM defense
is enabled, `<root>/bert_clf/<dataset>` otherwise. -/
def modelDirOf (root : Str) (enableSem : Bool) (dataset : Str) : Str :=
  pathJoin (pathJoin root (if enableSem then codes "bert_clf_sem" else codes "bert_clf")) dataset

/-- The checkpoint file name `model_init + "-%04dk" % (step // 1000)`:
codes 45 and 107 are `-` and `k`. -/
def ckptFileName (modelInit : Str) (step : Nat) : Str :=
  modelInit ++ [45] ++ fmt04Str (step / 1000) ++ [107]

/-- The resolved checkpoint directory for (root, defense mode, dataset name,
model family, step count). -/
def ckptPathOf (root : Str) (enableSem : Bool) (dataset modelInit : Str) (step : Nat) : Str :=
  pathJoin (modelDirOf root enableSem dataset) (ckptFileName modelInit step)

/-- Python exceptions raised by the pipeline: `AssertionError` (with the
assert's message, empty when the assert carries none) and `RuntimeError`. -/
inductive PyError where
  | assertion (msg : String)
  | runtime (msg : String)
deriving DecidableEq, Repr

/-! ## Optimizer/Schedule Factory (`get_optimizer`, lines 23-49) -/

/-- The three optimizer algorithms the factory can build. -/
inductive OptAlgo where
  | adam
  | sgd
  | adamw
deriving DecidableEq, Repr

/-- A bound optimizer: the algorithm and its hyper-parameters.  The parameter
tensors themselves are external state and are not modelled. -/
structure Optimizer where
  algo : OptAlgo
  lr : ℚ
  weightDecay : ℚ
deriving DecidableEq, Repr

/-- The multiplier computed by `transformers.get_linear_schedule_with_warmup`:
`step/max(1,warmup)` during warmup, then
`max(0, (T - step)/max(1, T - warmup))`. -/
def linearWarmupLambda (warmup totalSteps : Nat) (step : Nat) : ℚ :=
  if step < warmup then (step : ℚ) / max 1 (warmup : ℚ)
  else max 0 (((totalSteps : ℚ) - (step : ℚ)) / max 1 ((totalSteps : ℚ) - (warmup : ℚ)))

/-- A linear warmup/decay learning-rate schedule (torch `LambdaLR`: the
effective rate is the base rate times the step multiplier). -/
structure Schedule where
  baseLr : ℚ
  warmup : Nat
  totalSteps : Nat
deriving DecidableEq, Repr

/-- Learning rate of the schedule at a given step. -/
def Schedule.lrAt (s : Schedule) (step : Nat) : ℚ :=
  s.baseLr * linearWarmupLambda s.warmup s.totalSteps step

/-- Default number of warmup steps of `get_optimizer`. -/
def defaultWarmup : Nat := 1000

/-- `get_optimizer(optimizer_name, lr, decay, train_step, params, warmup)`:
builds the optimizer for a supported selector (otherwise fails with the
source's assertion message), paired with the linear warmup/decay schedule. -/
def get_optimizer (optimizerName : String) (lr decay : ℚ) (trainStep : Nat)
    (warmup : Nat) : Except PyError (Optimizer × Schedule) :=
  let sche : Schedule := { baseLr := lr, warmup := warmup, totalSteps := trainStep }
  if optimizerName = "adam" then
    .ok ({ algo := .adam, lr := lr, weightDecay := decay }, sche)
  else if optimizerName = "sgd" then
    .ok ({ algo := .sgd, lr := lr, weightDecay := decay }, sche)
  else if optimizerName = "adamw" then
    .ok ({ algo := .adamw, lr := lr, weightDecay := decay }, sche)
  else
    .error (.assertion "unkown optimizer")

/-! ## Evaluation Routine (`run_evaluate`, lines 52-87) -/

/-- Tensorboard scalar series written by the pipeline. -/
inductive SummaryTag where
  | clfTrainLoss
  | clfTrainErrorRate
  | clfValLoss
  | clfValErrorRate
deriving DecidableEq, Repr

/-- One `summary.add_scalar(tag, value, global_step)` record. -/
structure SummaryEntry where
  tag : SummaryTag
  step : Nat
  value : ℚ
deriving DecidableEq, Repr

/-- Abstraction of the validation batch iterator together with the model's
outputs on it: the `i`-th batch drawn from the stream has `bs i` examples, of
which the model classifies `correct i` correctly with loss `loss i`.  The
underlying source is an infinite cyclic stream over the validation split. -/
structure ValStream where
  bs : Nat → Nat
  correct : Nat → Nat
  loss : Nat → ℚ

/-- Result of the evaluation routine: the model's mode on exit, the summary
entries written, and the advanced iterator position. -/
structure EvalOut where
  modelMode : Mode
  entries : List SummaryEntry
  nextPos : Nat
deriving DecidableEq, Repr

/-- `run_evaluate(model, dataloader_iter, eval_steps, summary, global_step,
device)`: sets the model to eval mode, draws `evalSteps` batches under
`no_grad`, accumulates loss and exact-match counts, writes the aggregate
error rate `1 - correct/count` and the mean loss keyed by `globalStep`, and
sets the model to train mode. -/
def run_evaluate (vs : ValStream) (modeIn : Mode) (pos : Nat) (evalSteps : Nat)
    (globalStep : Nat) : EvalOut :=
  let count : Nat := ((List.range evalSteps).map (fun i => vs.bs (pos + i))).sum
  let correct : Nat := ((List.range evalSteps).map (fun i => vs.correct (pos + i))).sum
  let meanLoss : ℚ :=
    ((List.range evalSteps).map (fun i => vs.loss (pos + i))).sum / (evalSteps : ℚ)
  { modelMode := Mode.train
    entries :=
      [⟨.clfValErrorRate, globalStep, 1 - (correct : ℚ) / (count : ℚ)⟩,
       ⟨.clfValLoss, globalStep, meanLoss⟩]
    nextPos := pos + evalSteps }

/-! ## Training Loop (`load_or_train_bert_clf`, lines 89-213) -/

/-- All inputs of `load_or_train_bert_clf`.  The training batch source and the
model's behavior on it are abstracted per step: at global step `g` (1-based)
the drawn batch has `trainBs g` examples, `trainCorrect g` of them are
classified correctly, and the forward pass produces loss `trainLoss g`. -/
structure TrainParams where
  root : Str
  datasetName : Str
  modelInit : Str
  steps : Nat
  periodSummary : Nat
  periodVal : Nat
  periodSave : Nat
  valSteps : Nat
  enableSem : Bool
  trainBs : Nat → Nat
  trainCorrect : Nat → Nat
  trainLoss : Nat → ℚ
  val : ValStream

/-- Mutable state of the training loop: the global step counter, the running
correct/total counters since the last summary flush, the count of optimizer
update steps taken, the validation iterator position, the model mode, the
summary log, and the list of checkpoint paths written. -/
structure LoopState where
  globalStep : Nat
  correctTrain : Nat
  countTrain : Nat
  optSteps : Nat
  valPos : Nat
  modelMode : Mode
  summary : List SummaryEntry
  saved : List Str
deriving DecidableEq, Repr

/-- Loop state on entry: counters at zero, model in train mode (`model.train()`
is called right after the model is built). -/
def trainLoopInit : LoopState :=
  { globalStep := 0, correctTrain := 0, countTrain := 0, optSteps := 0,
    valPos := 0, modelMode := Mode.train, summary := [], saved := [] }

/-- One iteration of the `for` body: increment the step counter, accumulate
the running counters, take one optimizer and one scheduler step, then perform
the periodic summary flush, validation, and checkpoint save. -/
def trainBody (p : TrainParams) (s : LoopState) : LoopState :=
  let g := s.globalStep + 1
  let correct1 := s.correctTrain + p.trainCorrect g
  let count1 := s.countTrain + p.trainBs g
  let flush := g % p.periodSummary = 0
  let flushEntries : List SummaryEntry :=
    if flush then
      [⟨.clfTrainLoss, g, p.trainLoss g⟩,
       ⟨.clfTrainErrorRate, g, 1 - (correct1 : ℚ) / (count1 : ℚ)⟩]
    else []
  let runVal := g % p.periodVal = 0
  let ev := run_evaluate p.val s.modelMode s.valPos p.valSteps g
  let valEntries : List SummaryEntry := if runVal then ev.entries else []
  let doSave := g % p.periodSave = 0 ∨ g = p.steps
  let savedNew : List Str :=
    if doSave then [ckptPathOf p.root p.enableSem p.datasetName p.modelInit g] else []
  { globalStep := g
    correctTrain := if flush then 0 else correct1
    countTrain := if flush then 0 else count1
    optSteps := s.optSteps + 1
    valPos := if runVal then ev.nextPos else s.valPos
    modelMode := if runVal then ev.modelMode else s.modelMode
    summary := s.summary ++ flushEntries ++ valEntries
    saved := s.saved ++ savedNew }

/-- The `for seq, mask, tok_type, label in tqdm.tqdm(dataloader)` loop: run
the body, then stop as soon as `global_step >= bert_clf_steps`. -/
def trainLoopGo (p : TrainParams) (s : LoopState) : LoopState :=
  if p.steps ≤ (trainBody p s).globalStep then trainBody p s
  else trainLoopGo p (trainBody p s)
termination_by p.steps - s.globalStep
decreasing_by
  have hg : (trainBody p s).globalStep = s.globalStep + 1 := by simp [trainBody]
  simp only [hg] at *
  omega

/-- The state reached after exactly `k` iterations of the loop body. -/
def trainIter (p : TrainParams) (k : Nat) : LoopState :=
  (trainBody p)^[k] trainLoopInit

/-- The final loop state of a fresh training run. -/
def trainLoopResult (p : TrainParams) : LoopState :=
  trainLoopGo p trainLoopInit

/-- Observable result of `load_or_train_bert_clf`: whether the training loop
ran, where the model was loaded from, the returned model's mode, the number
of optimizer update steps executed, and the summary/checkpoint side effects. -/
structure LoadOrTrainResult where
  ranTraining : Bool
  loadedFrom : Option Str
  modelMode : Mode
  optSteps : Nat
  summary : List SummaryEntry
  saved : List Str
deriving DecidableEq, Repr

/-- The checkpoint path whose existence gates load-vs-train. -/
def gateCkptPath (p : TrainParams) : Str :=
  ckptPathOf p.root p.enableSem p.datasetName p.modelInit p.steps

/-- `load_or_train_bert_clf`: resolve the checkpoint path for the configured
step count; if it exists (`fs` is the filesystem's existence predicate) load
the model from it and set it to eval mode; otherwise run the training loop and
switch the model to eval mode on exit. -/
def load_or_train_bert_clf (p : TrainParams) (fs : Str → Bool) : LoadOrTrainResult :=
  if fs (gateCkptPath p) then
    { ranTraining := false, loadedFrom := some (gateCkptPath p), modelMode := Mode.eval,
      optSteps := 0, summary := [], saved := [] }
  else
    let fin := trainLoopResult p
    { ranTraining := true, loadedFrom := none, modelMode := Mode.eval,
      optSteps := fin.optSteps, summary := fin.summary, saved := fin.saved }

/-! ## Classifier Facade (`BertClassifier`, lines 216-428) -/

/-- A fibber data record as passed to the facade: `text0` always present per
the dataset contract, `text1` optional, and an integer label. -/
structure DataRecord where
  text0 : String
  text1 : Option String
  label : Nat
deriving DecidableEq, Repr

/-- Facade state relevant to the verified operations: the defense flags, the
optional fine-tune optimizer/schedule pair, the model mode, and an abstract
version counter for the model parameters (incremented by each optimizer
update). -/
structure Facade where
  enableSem : Bool
  enableLmag : Bool
  fineTuneOpt : Option Optimizer
  fineTuneSche : Option Schedule
  modelMode : Mode
  paramsVersion : Nat
deriving DecidableEq, Repr

/-- How the batch is fed to the tokenizer: `text=...` alone, or
`text=..., text_pair=...`. -/
inductive TokenizationShape where
  | single (texts : List String)
  | paired (contexts : List String) (texts : List String)
deriving DecidableEq, Repr

/-- Observable outcome of a successful `predict_dist_batch` call: which
defenses were applied and how the final candidate list was tokenized.  The
resulting log-probability values are external tensor computation. -/
structure PredictOutcome where
  semApplied : Bool
  lmagApplied : Bool
  tokenization : TokenizationShape
deriving DecidableEq, Repr

/-- `BertClassifier.predict_dist_batch(origin, paraphrase_list, data_record,
paraphrase_field)`.  The SEM word-map transform (`sem_fix_sentences`) and the
LM-guided rewrite (`lmag_fix_sentences`) are external collaborators passed as
functions.  Mirrors the control flow of lines 315-351: SEM rewrite, the
LM-guided context check (`assert paraphrase_field == "text1"` fires only when
the record carries `text1`), the LM-guided rewrite, then tokenization by
field, with the `assert` of line 329 for an unknown field. -/
def predict_dist_batch (f : Facade)
    (semFix : List String → List String)
    (lmagFix : List String → Option (List String) → List String)
    (paraphraseList : List String) (dataRecord : DataRecord)
    (paraphraseField : String) : Except PyError PredictOutcome :=
  let pl1 := if f.enableSem then semFix paraphraseList else paraphraseList
  if f.enableLmag ∧ dataRecord.text1.isSome ∧ paraphraseField ≠ "text1" then
    .error (.assertion "")
  else
    let ctx : Option (List String) :=
      if dataRecord.text1.isSome then
        some (List.replicate pl1.length dataRecord.text0)
      else none
    let pl2 := if f.enableLmag then lmagFix pl1 ctx else pl1
    if paraphraseField = "text0" then
      .ok { semApplied := f.enableSem, lmagApplied := f.enableLmag,
            tokenization := .single pl2 }
    else if paraphraseField = "text1" then
      .ok { semApplied := f.enableSem, lmagApplied := f.enableLmag,
            tokenization := .paired (List.replicate pl2.length dataRecord.text0) pl2 }
    else
      .error (.assertion "")

/-- `BertClassifier.robust_tune_init(...)` (lines 367-375): fails when a
fine-tune pair is already live, otherwise builds a fresh optimizer/schedule
pair via `get_optimizer`.  The first component of the result is the facade
state after the call. -/
def robust_tune_init (f : Facade) (optimizerName : String) (lr decay : ℚ)
    (steps : Nat) : Facade × Except PyError Unit :=
  if f.fineTuneSche.isSome ∨ f.fineTuneOpt.isSome then
    (f, .error (.runtime "fine tuning has been initialized."))
  else
    match get_optimizer optimizerName lr decay steps defaultWarmup with
    | .ok (opt, sche) =>
        ({ f with fineTuneOpt := some opt, fineTuneSche := some sche }, .ok ())
    | .error e => (f, .error e)

/-- Observable outcome of a successful `robust_tune_step` call: how the batch
was tokenized and the labels fed to the model.  The returned predictions and
loss value are external tensor computation. -/
structure TuneStepOutcome where
  tokenization : TokenizationShape
  labels : List Nat
deriving DecidableEq, Repr

/-- `BertClassifier.robust_tune_step(data_record_list)` (lines 377-413):
fails if fine-tuning is not initialized; otherwise switches the model to
train mode, collects the `text0`/`text1` fields and labels across the batch,
fails when `text1` presence is ragged, and on success performs one optimizer
and scheduler update and switches the model back to eval mode. -/
def robust_tune_step (f : Facade) (dataRecordList : List DataRecord) :
    Facade × Except PyError TuneStepOutcome :=
  if f.fineTuneSche.isNone ∨ f.fineTuneOpt.isNone then
    (f, .error (.runtime "fine tuning not initialized."))
  else
    let f1 : Facade := { f with modelMode := Mode.train }
    let text0List := dataRecordList.map (fun r => r.text0)
    let text1List := dataRecordList.filterMap (fun r => r.text1)
    let labels := dataRecordList.map (fun r => r.label)
    if text1List.length = 0 then
      ({ f1 with paramsVersion := f1.paramsVersion + 1, modelMode := Mode.eval },
       .ok { tokenization := .single text0List, labels := labels })
    else if text1List.length ≠ text0List.length then
      (f1, .error (.runtime "data records are not consistent."))
    else
      ({ f1 with paramsVersion := f1.paramsVersion + 1, modelMode := Mode.eval },
       .ok { tokenization := .paired text0List text1List, labels := labels })

/-! ## Concrete instances used for counterexamples and witnesses -/

/-- A validation stream of singleton batches, all correct, zero loss. -/
def vsUnit : ValStream :=
  { bs := fun _ => 1, correct := fun _ => 1, loss := fun _ => 0 }

/-- Concrete training parameters, step budget `n`, summary period 2, other
periods large; the loss is 5 at step 1 and 1 afterwards, batches are
singletons and always correct. -/
def exampleParams (n : Nat) : TrainParams :=
  { root := codes "root", datasetName := codes "ag", modelInit := codes "bert-base-uncased",
    steps := n, periodSummary := 2, periodVal := 1000000, periodSave := 1000000,
    valSteps := 1, enableSem := false,
    trainBs := fun _ => 1, trainCorrect := fun _ => 1,
    trainLoss := fun g => if g = 1 then 5 else 1, val := vsUnit }

/-- A filesystem with no checkpoint directories. -/
def fsEmpty : Str → Bool := fun _ => false

/-- A filesystem on which every path exists. -/
def fsFull : Str → Bool := fun _ => true

/-- A facade with no live fine-tune pair, LM-guided defense disabled. -/
def facadeFresh : Facade :=
  { enableSem := false, enableLmag := false, fineTuneOpt := none,
    fineTuneSche := none, modelMode := Mode.eval, paramsVersion := 0 }

/-- A facade with the LM-guided defense enabled and no live fine-tune pair. -/
def facadeLmag : Facade :=
  { facadeFresh with enableLmag := true }

/-- The facade state after a successful `robust_tune_init` on a fresh facade. -/
def facadeTuned : Facade :=
  (robust_tune_init facadeFresh "adam" 1 0 10).1

/-- A record carrying both text fields. -/
def recPair : DataRecord := { text0 := "premise", text1 := some "hypothesis", label := 0 }

/-- A record carrying only `text0`. -/
def recSingle : DataRecord := { text0 := "a movie review", text1 := none, label := 1 }

/-- A 3-record batch in which the middle record lacks `text1`. -/
def mixedBatch : List DataRecord := [recPair, recSingle, recPair]

/-- Training parameters with checkpoint period 2 and step budget 3. -/
def exampleParamsSave : TrainParams :=
  { exampleParams 3 with periodSave := 2 }

/-- A loop state about to execute global step 2. -/
def exampleState : LoopState :=
  { trainLoopInit with globalStep := 1 }

/-! # Theorems -/

/-! ## Decimal formatting -/

theorem foldl_natDigits (n : Nat) :
    ∀ a : Nat, List.foldl (fun a d => 10 * a + d) a (natDigits n)
      = a * 10 ^ (natDigits n).length + n := by
  induction n using Nat.strong_induction_on with
  | _ n ih =>
    intro a
    match n with
    | 0 => simp [natDigits]
    | m + 1 =>
      rw [natDigits]
      rw [List.foldl_append]
      rw [ih ((m + 1) / 10) (Nat.div_lt_self (Nat.succ_pos m) (by omega))]
      simp only [List.foldl_cons, List.foldl_nil, List.length_append,
        List.length_singleton]
      have hdm := Nat.div_add_mod (m + 1) 10
      ring_nf
      omega

theorem digitsVal_natDigits (n : Nat) : digitsVal (natDigits n) = n := by
  have h := foldl_natDigits n 0
  simpa [digitsVal] using h

theorem digitsVal_reprDigits (n : Nat) : digitsVal (reprDigits n) = n := by
  by_cases h : n = 0
  · simp [reprDigits, h, digitsVal]
  · simp [reprDigits, h, digitsVal_natDigits]

theorem foldl_replicate_zero (k : Nat) :
    List.foldl (fun a d => 10 * a + d) 0 (List.replicate k 0) = 0 := by
  induction k with
  | zero => rfl
  | succ k ih => simpa [List.replicate_succ] using ih

theorem digitsVal_fmt04 (n : Nat) : digitsVal (fmt04 n) = n := by
  unfold fmt04 digitsVal
  rw [List.foldl_append]
  rw [foldl_replicate_zero]
  exact digitsVal_reprDigits n

/-- `%04d` formatting is injective on natural numbers. -/
theorem fmt04_injective : Function.Injective fmt04 := by
  intro a b h
  have := congrArg digitsVal h
  rwa [digitsVal_fmt04, digitsVal_fmt04] at this

theorem fmt04Str_injective : Function.Injective fmt04Str := by
  intro a b h
  apply fmt04_injective
  have hm : Function.Injective (fun d : Nat => 48 + d) := by
    intro x y hxy
    simpa using hxy
  exact List.map_injective_iff.mpr hm h

/-! ## Checkpoint path resolution -/

/-- The resolved checkpoint path determines and is determined by
`step / 1000` (all other inputs fixed). -/
theorem ckptPathOf_eq_iff (root : Str) (e : Bool) (d m : Str) (s t : Nat) :
    ckptPathOf root e d m s = ckptPathOf root e d m t ↔ s / 1000 = t / 1000 := by
  constructor
  · intro h
    unfold ckptPathOf pathJoin ckptFileName at h
    have h1 : fmt04Str (s / 1000) ++ [107] = fmt04Str (t / 1000) ++ [107] := by
      have hpre :
          (modelDirOf root e d ++ [47] ++ m ++ [45]) ++ (fmt04Str (s / 1000) ++ [107])
            = (modelDirOf root e d ++ [47] ++ m ++ [45]) ++ (fmt04Str (t / 1000) ++ [107]) := by
        simpa [List.append_assoc] using h
      exact List.append_cancel_left hpre
    have hlen : (fmt04Str (s / 1000)).length = (fmt04Str (t / 1000)).length := by
      have := congrArg List.length h1
      simpa using this
    exact fmt04Str_injective ((List.append_inj h1 hlen).1)
  · intro h
    unfold ckptPathOf ckptFileName
    rw [h]

/-! ## Training loop bookkeeping -/

theorem trainBody_globalStep (p : TrainParams) (s : LoopState) :
    (trainBody p s).globalStep = s.globalStep + 1 := by
  simp [trainBody]

theorem trainBody_optSteps (p : TrainParams) (s : LoopState) :
    (trainBody p s).optSteps = s.optSteps + 1 := by
  simp [trainBody]

theorem trainBody_summary (p : TrainParams) (s : LoopState) :
    (trainBody p s).summary = s.summary
      ++ (if (s.globalStep + 1) % p.periodSummary = 0 then
            [⟨.clfTrainLoss, s.globalStep + 1, p.trainLoss (s.globalStep + 1)⟩,
             ⟨.clfTrainErrorRate, s.globalStep + 1,
               1 - ((s.correctTrain + p.trainCorrect (s.globalStep + 1) : ℕ) : ℚ)
                 / ((s.countTrain + p.trainBs (s.globalStep + 1) : ℕ) : ℚ)⟩]
          else [])
      ++ (if (s.globalStep + 1) % p.periodVal = 0 then
            (run_evaluate p.val s.modelMode s.valPos p.valSteps (s.globalStep + 1)).entries
          else []) := by
  simp [trainBody]

theorem trainBody_correctTrain (p : TrainParams) (s : LoopState) :
    (trainBody p s).correctTrain =
      if (s.globalStep + 1) % p.periodSummary = 0 then 0
      else s.correctTrain + p.trainCorrect (s.globalStep + 1) := by
  simp [trainBody]

theorem trainBody_countTrain (p : TrainParams) (s : LoopState) :
    (trainBody p s).countTrain =
      if (s.globalStep + 1) % p.periodSummary = 0 then 0
      else s.countTrain + p.trainBs (s.globalStep + 1) := by
  simp [trainBody]

theorem trainBody_saved (p : TrainParams) (s : LoopState) :
    (trainBody p s).saved = s.saved
      ++ (if (s.globalStep + 1) % p.periodSave = 0 ∨ s.globalStep + 1 = p.steps then
            [ckptPathOf p.root p.enableSem p.datasetName p.modelInit (s.globalStep + 1)]
          else []) := by
  simp [trainBody]

theorem trainIter_succ (p : TrainParams) (k : Nat) :
    trainIter p (k + 1) = trainBody p (trainIter p k) :=
  Function.iterate_succ_apply' (trainBody p) k trainLoopInit

theorem trainIter_globalStep (p : TrainParams) (k : Nat) :
    (trainIter p k).globalStep = k := by
  induction k with
  | zero => rfl
  | succ k ih => rw [trainIter_succ, trainBody_globalStep, ih]

theorem trainIter_optSteps (p : TrainParams) (k : Nat) :
    (trainIter p k).optSteps = k := by
  induction k with
  | zero => rfl
  | succ k ih => rw [trainIter_succ, trainBody_optSteps, ih]

/-- The loop with its end-of-body exit test performs exactly
`max 1 (steps - start)` iterations of the body. -/
theorem trainLoopGo_eq_iterate (p : TrainParams) (s : LoopState) :
    trainLoopGo p s = (trainBody p)^[max 1 (p.steps - s.globalStep)] s := by
  generalize hn : p.steps - s.globalStep = n
  induction n using Nat.strong_induction_on generalizing s with
  | _ n ih =>
    rw [trainLoopGo]
    by_cases h : p.steps ≤ (trainBody p s).globalStep
    · rw [if_pos h]
      have hb := trainBody_globalStep p s
      have hmax : max 1 n = 1 := Nat.max_eq_left (by rw [hb] at h; omega)
      rw [hmax, Function.iterate_one]
    · rw [if_neg h]
      have hb := trainBody_globalStep p s
      have hn2 : 2 ≤ n := by rw [hb] at h; omega
      have hrec : p.steps - (trainBody p s).globalStep = n - 1 := by rw [hb]; omega
      rw [ih (n - 1) (by omega) (trainBody p s) hrec]
      have hmax1 : max 1 (n - 1) = n - 1 := Nat.max_eq_right (by omega)
      have hmax : max 1 n = n := Nat.max_eq_right (by omega)
      rw [hmax1, hmax, ← Function.iterate_succ_apply]
      congr 1
      omega

theorem trainLoopResult_eq_iterate (p : TrainParams) :
    trainLoopResult p = trainIter p (max 1 p.steps) := by
  rw [trainLoopResult, trainLoopGo_eq_iterate]
  rfl

/-- `(k+1) % P` in terms of `k % P` when it is nonzero. -/
theorem succ_mod_of_ne_zero {P k : Nat} (h : (k + 1) % P ≠ 0) :
    (k + 1) % P = k % P + 1 := by
  rcases Nat.eq_zero_or_pos P with hP | hP
  · subst hP
    simp
  rcases Nat.eq_or_lt_of_le hP with hP1 | hP2
  · exfalso
    apply h
    rw [← hP1]
    exact Nat.mod_one (k + 1)
  have hone : 1 % P = 1 := Nat.mod_eq_of_lt hP2
  have hm : (k + 1) % P = (k % P + 1) % P := by
    conv_lhs => rw [Nat.add_mod, hone]
  have hlt : k % P < P := Nat.mod_lt k hP
  rcases Nat.eq_or_lt_of_le (Nat.succ_le_of_lt hlt) with he | hl
  · exfalso
    apply h
    have he' : k % P + 1 = P := he
    rw [hm, he', Nat.mod_self]
  · rw [hm, Nat.mod_eq_of_lt hl]

/-- Running counters invariant: after `k` body iterations, the running
correct/total counters hold exactly the sums over the steps since the last
summary flush (the last multiple of the summary period). -/
theorem trainIter_counters (p : TrainParams) (k : Nat) :
    (trainIter p k).correctTrain
        = ∑ i in Finset.Ioc (k - k % p.periodSummary) k, p.trainCorrect i ∧
    (trainIter p k).countTrain
        = ∑ i in Finset.Ioc (k - k % p.periodSummary) k, p.trainBs i := by
  induction k with
  | zero => simp [trainIter, trainLoopInit]
  | succ k ih =>
    rw [trainIter_succ, trainBody_correctTrain, trainBody_countTrain,
      trainIter_globalStep]
    by_cases h : (k + 1) % p.periodSummary = 0
    · rw [if_pos h, if_pos h, h]
      simp
    · rw [if_neg h, if_neg h, ih.1, ih.2]
      have hs := succ_mod_of_ne_zero h
      have hbase : k + 1 - (k + 1) % p.periodSummary = k - k % p.periodSummary := by
        rw [hs]
        omega
      have hle : k - k % p.periodSummary ≤ k := Nat.sub_le _ _
      rw [hbase]
      exact ⟨(Finset.sum_Ioc_succ_top hle _).symm, (Finset.sum_Ioc_succ_top hle _).symm⟩

theorem trainBody_summary_grows (p : TrainParams) (s : LoopState) :
    s.summary <+: (trainBody p s).summary := by
  rw [trainBody_summary, List.append_assoc]
  exact List.prefix_append _ _

theorem summary_mem_trainIter_le (p : TrainParams) (x : SummaryEntry)
    {k k' : Nat} (hk : k ≤ k') :
    x ∈ (trainIter p k).summary → x ∈ (trainIter p k').summary := by
  induction k' , hk using Nat.le_induction with
  | base => exact id
  | succ m hm ihm =>
    intro hx
    rw [trainIter_succ]
    exact (trainBody_summary_grows p (trainIter p m)).subset (ihm hx)

/-- The two training-summary entries written at a flush step `s`, with the
error rate computed from the counters accumulated since the previous flush. -/
theorem flush_entries_mem (p : TrainParams) (s : Nat)
    (hs : 1 ≤ s) (hmod : s % p.periodSummary = 0) (hP : 0 < p.periodSummary) :
    (⟨.clfTrainLoss, s, p.trainLoss s⟩ : SummaryEntry) ∈ (trainIter p s).summary ∧
    (⟨.clfTrainErrorRate, s,
        1 - ((∑ i in Finset.Ioc (s - p.periodSummary) s, p.trainCorrect i : ℕ) : ℚ)
          / ((∑ i in Finset.Ioc (s - p.periodSummary) s, p.trainBs i : ℕ) : ℚ)⟩ :
      SummaryEntry) ∈ (trainIter p s).summary := by
  obtain ⟨q, hq⟩ := Nat.dvd_of_mod_eq_zero hmod
  have hq1 : 1 ≤ q := by
    rcases Nat.eq_zero_or_pos q with h0 | h1
    · rw [h0, Nat.mul_zero] at hq
      omega
    · exact h1
  have hsP : p.periodSummary ≤ s := by
    rw [hq]
    exact Nat.le_mul_of_pos_right _ hq1
  obtain ⟨m, hm⟩ : ∃ m, s = m + 1 := ⟨s - 1, by omega⟩
  have hmg : (trainIter p m).globalStep = m := trainIter_globalStep p m
  have hmp : m % p.periodSummary = p.periodSummary - 1 := by
    have hsplit : m = (p.periodSummary - 1) + p.periodSummary * (q - 1) := by
      have hqq : q - 1 + 1 = q := by omega
      have hPq : p.periodSummary * q = p.periodSummary * (q - 1) + p.periodSummary := by
        calc p.periodSummary * q = p.periodSummary * ((q - 1) + 1) := by rw [hqq]
          _ = p.periodSummary * (q - 1) + p.periodSummary := by ring
      have hq' : s = p.periodSummary * (q - 1) + p.periodSummary := by rw [hq, hPq]
      omega
    rw [hsplit, Nat.add_mul_mod_self_left]
    exact Nat.mod_eq_of_lt (by omega)
  have hcorr := (trainIter_counters p m).1
  have hcount := (trainIter_counters p m).2
  have hwin : m - m % p.periodSummary = s - p.periodSummary := by
    rw [hmp]
    omega
  have hsum := trainBody_summary p (trainIter p m)
  rw [hmg, ← hm] at hsum
  rw [hmod] at hsum
  rw [if_pos rfl] at hsum
  rw [hm, trainIter_succ, ← hm, hsum]
  rw [hcorr, hcount, hwin]
  have hC : Finset.Ioc (s - p.periodSummary) m = Finset.Ioc (s - p.periodSummary) (s - 1) := by
    rw [hm]
    simp
  constructor
  · apply List.mem_append_left
    apply List.mem_append_right
    simp
  · apply List.mem_append_left
    apply List.mem_append_right
    have htop : s - p.periodSummary ≤ m := by omega
    have h1 := Finset.sum_Ioc_succ_top htop p.trainCorrect
    have h2 := Finset.sum_Ioc_succ_top htop p.trainBs
    rw [← hm] at h1 h2
    rw [← h1, ← h2]
    simp

/-! ## Linear warmup/decay schedule shape -/

theorem linearWarmupLambda_zero (w T : Nat) (hw : 0 < w) :
    linearWarmupLambda w T 0 = 0 := by
  simp [linearWarmupLambda, hw]

theorem linearWarmupLambda_at_warmup (w T : Nat) (hwT : w < T) :
    linearWarmupLambda w T w = 1 := by
  have h1 : (1 : ℚ) ≤ (T : ℚ) - (w : ℚ) := by
    have : (w + 1 : ℕ) ≤ T := hwT
    have := Nat.cast_le (α := ℚ).mpr this
    push_cast at this
    linarith
  have hmax : max 1 ((T : ℚ) - (w : ℚ)) = (T : ℚ) - (w : ℚ) := max_eq_right h1
  have hne : (T : ℚ) - (w : ℚ) ≠ 0 := by linarith
  simp [linearWarmupLambda, hmax, div_self hne]

theorem linearWarmupLambda_warmup_mono (w T : Nat) (hwT : w < T)
    (a b : Nat) (hab : a < b) (hbw : b ≤ w) :
    linearWarmupLambda w T a < linearWarmupLambda w T b := by
  have hw : 0 < w := by omega
  have hwq : (1 : ℚ) ≤ (w : ℚ) := by exact_mod_cast hw
  have hmaxw : max 1 (w : ℚ) = (w : ℚ) := max_eq_right hwq
  have hwpos : (0 : ℚ) < (w : ℚ) := by exact_mod_cast hw
  rcases lt_or_eq_of_le hbw with hb | hb
  · have ha : a < w := lt_trans hab hb
    have habq : (a : ℚ) < (b : ℚ) := by exact_mod_cast hab
    simp only [linearWarmupLambda, if_pos ha, if_pos hb, hmaxw]
    exact div_lt_div_of_pos_right habq hwpos
  · subst hb
    rw [linearWarmupLambda_at_warmup b T hwT]
    have haq : (a : ℚ) < (b : ℚ) := by exact_mod_cast hab
    simp only [linearWarmupLambda, if_pos hab, hmaxw]
    exact (div_lt_one hwpos).mpr haq

theorem linearWarmupLambda_decay_anti (w T : Nat)
    (a b : Nat) (haw : w ≤ a) (hab : a < b) (hbT : b ≤ T) :
    linearWarmupLambda w T b < linearWarmupLambda w T a := by
  have hna : ¬ a < w := not_lt.mpr haw
  have hnb : ¬ b < w := not_lt.mpr (le_trans haw (le_of_lt hab))
  have hden : (1 : ℚ) ≤ max 1 ((T : ℚ) - (w : ℚ)) := le_max_left _ _
  have hdpos : (0 : ℚ) < max 1 ((T : ℚ) - (w : ℚ)) := lt_of_lt_of_le one_pos hden
  have hbq : (b : ℚ) ≤ (T : ℚ) := by exact_mod_cast hbT
  have haq : (a : ℚ) < (b : ℚ) := by exact_mod_cast hab
  have hnb0 : (0 : ℚ) ≤ ((T : ℚ) - (b : ℚ)) / max 1 ((T : ℚ) - (w : ℚ)) :=
    div_nonneg (by linarith) (le_of_lt hdpos)
  have hna0 : (0 : ℚ) ≤ ((T : ℚ) - (a : ℚ)) / max 1 ((T : ℚ) - (w : ℚ)) :=
    div_nonneg (by linarith) (le_of_lt hdpos)
  simp only [linearWarmupLambda, if_neg hna, if_neg hnb, max_eq_right hnb0,
    max_eq_right hna0]
  exact div_lt_div_of_pos_right (by linarith) hdpos

theorem linearWarmupLambda_at_total (w T : Nat) (hwT : w ≤ T) :
    linearWarmupLambda w T T = 0 := by
  have h : ¬ T < w := not_lt.mpr hwT
  simp [linearWarmupLambda, h]

/-- Shape of the schedule `⟨lr, w, T⟩` when the step budget exceeds warmup. -/
theorem schedule_shape (lr : ℚ) (w T : Nat) (hw : 0 < w) (hwT : w < T) (hlr : 0 < lr) :
    (Schedule.mk lr w T).lrAt 0 = 0 ∧
    (∀ a b : Nat, a < b → b ≤ w → (Schedule.mk lr w T).lrAt a < (Schedule.mk lr w T).lrAt b) ∧
    (Schedule.mk lr w T).lrAt w = lr ∧
    (∀ a b : Nat, w ≤ a → a < b → b ≤ T →
      (Schedule.mk lr w T).lrAt b < (Schedule.mk lr w T).lrAt a) ∧
    (Schedule.mk lr w T).lrAt T = 0 := by
  refine ⟨?_, ?_, ?_, ?_, ?_⟩
  · simp [Schedule.lrAt, linearWarmupLambda_zero w T hw]
  · intro a b hab hbw
    simp only [Schedule.lrAt]
    exact mul_lt_mul_of_pos_left (linearWarmupLambda_warmup_mono w T hwT a b hab hbw) hlr
  · simp [Schedule.lrAt, linearWarmupLambda_at_warmup w T hwT]
  · intro a b haw hab hbT
    simp only [Schedule.lrAt]
    exact mul_lt_mul_of_pos_left (linearWarmupLambda_decay_anti w T a b haw hab hbT) hlr
  · simp [Schedule.lrAt, linearWarmupLambda_at_total w T (le_of_lt hwT)]

/-! # Claims -/

/-- C1 counterexample: a model that enters `run_evaluate` in eval mode is not
in eval mode on exit, so the routine does not leave the training/eval mode
unchanged for every entry mode. -/
theorem run_evaluate_mode_not_preserved :
    (run_evaluate vsUnit Mode.eval 0 1 0).modelMode ≠ Mode.eval := by
  decide

/-- C1 (amended): the Evaluation Routine always leaves the model in train
mode on exit, whatever mode it entered in; consequently the entry mode is
preserved exactly when the model entered in train mode, and calling the
routine twice in a row also ends with the model in train mode. -/
theorem run_evaluate_mode (vs : ValStream) (mode : Mode)
    (pos evalSteps globalStep pos2 evalSteps2 globalStep2 : Nat) :
    (run_evaluate vs mode pos evalSteps globalStep).modelMode = Mode.train ∧
    ((run_evaluate vs mode pos evalSteps globalStep).modelMode = mode ↔ mode = Mode.train) ∧
    (run_evaluate vs (run_evaluate vs mode pos evalSteps globalStep).modelMode
        pos2 evalSteps2 globalStep2).modelMode = Mode.train :=
  ⟨rfl, ⟨fun h => h.symm, fun h => h.symm⟩, rfl⟩

/-- C2 counterexample: with the LM-guided defense enabled, `predict_dist_batch`
on the first field does not raise for a record that carries only `text0`: it
classifies the candidate list normally. -/
theorem predict_lmag_text0_not_always_raising :
    predict_dist_batch facadeLmag id (fun l _ => l) ["a paraphrase"] recSingle "text0"
      = .ok { semApplied := false, lmagApplied := true,
              tokenization := .single ["a paraphrase"] } := by
  rfl

/-- C2 (amended): with the LM-guided defense enabled, `predict_dist_batch` on
the first field `"text0"` raises an assertion error precisely for records that
carry a `text1` field; a record with only `text0` is classified without
error. -/
theorem predict_lmag_text0_guard (f : Facade)
    (semFix : List String → List String)
    (lmagFix : List String → Option (List String) → List String)
    (pl : List String) (rec : DataRecord)
    (hlmag : f.enableLmag = true) :
    (rec.text1.isSome = true →
      predict_dist_batch f semFix lmagFix pl rec "text0" = .error (.assertion "")) ∧
    (rec.text1 = none →
      predict_dist_batch f semFix lmagFix pl rec "text0"
        = .ok { semApplied := f.enableSem, lmagApplied := true,
                tokenization := .single (lmagFix (if f.enableSem then semFix pl else pl) none) }) := by
  constructor
  · intro h1
    unfold predict_dist_batch
    rw [if_pos ⟨hlmag, h1, by decide⟩]
  · intro h1
    unfold predict_dist_batch
    rw [if_neg (by simp [h1])]
    simp [h1, hlmag]

/-- C2 witness: the amended guard at concrete inputs — a paired record raises,
a single-field record classifies. -/
theorem predict_lmag_text0_guard_witness :
    predict_dist_batch facadeLmag id (fun l _ => l) ["p"] recPair "text0"
      = .error (.assertion "") ∧
    predict_dist_batch facadeLmag id (fun l _ => l) ["p"] recSingle "text0"
      = .ok { semApplied := false, lmagApplied := true, tokenization := .single ["p"] } := by
  constructor
  · exact (predict_lmag_text0_guard facadeLmag id (fun l _ => l) ["p"] recPair rfl).1 rfl
  · have h := (predict_lmag_text0_guard facadeLmag id (fun l _ => l) ["p"] recSingle rfl).2 rfl
    simpa using h

/-- C3 counterexample: with a step budget of 0 and no existing checkpoint, the
training loop still performs one optimizer update step (the exit test runs
after the body), so it does not perform at most `N` steps for `N = 0`. -/
theorem training_loop_zero_budget :
    (load_or_train_bert_clf (exampleParams 0) fsEmpty).ranTraining = true ∧
    ¬ (load_or_train_bert_clf (exampleParams 0) fsEmpty).optSteps ≤ 0 := by
  have h1 : (load_or_train_bert_clf (exampleParams 0) fsEmpty).optSteps
      = (trainIter (exampleParams 0) (max 1 (exampleParams 0).steps)).optSteps := by
    show (trainLoopResult (exampleParams 0)).optSteps = _
    rw [trainLoopResult_eq_iterate]
  constructor
  · rfl
  · rw [h1, trainIter_optSteps]
    decide

/-- C3 (amended): for every positive step budget `N`, a fresh run of the
training loop performs exactly `N` optimizer update steps (hence at most `N`),
returns the model in eval mode, and a checkpoint was written at the path
resolved for exactly step count `N`. -/
theorem training_loop_budget (p : TrainParams) (fs : Str → Bool)
    (hN : 1 ≤ p.steps) (hfresh : fs (gateCkptPath p) = false) :
    (load_or_train_bert_clf p fs).ranTraining = true ∧
    (load_or_train_bert_clf p fs).optSteps = p.steps ∧
    (load_or_train_bert_clf p fs).modelMode = Mode.eval ∧
    gateCkptPath p ∈ (load_or_train_bert_clf p fs).saved := by
  have hgate : load_or_train_bert_clf p fs
      = { ranTraining := true, loadedFrom := none, modelMode := Mode.eval,
          optSteps := (trainLoopResult p).optSteps,
          summary := (trainLoopResult p).summary,
          saved := (trainLoopResult p).saved } := by
    unfold load_or_train_bert_clf
    rw [hfresh]
    rfl
  rw [hgate]
  refine ⟨rfl, ?_, rfl, ?_⟩
  · rw [trainLoopResult_eq_iterate, Nat.max_eq_right hN, trainIter_optSteps]
  · obtain ⟨m, hm⟩ : ∃ m, p.steps = m + 1 := ⟨p.steps - 1, by omega⟩
    have hpath : gateCkptPath p
        = ckptPathOf p.root p.enableSem p.datasetName p.modelInit (m + 1) := by
      rw [gateCkptPath, hm]
    rw [trainLoopResult_eq_iterate, Nat.max_eq_right hN, hm, trainIter_succ,
      trainBody_saved, trainIter_globalStep, if_pos (Or.inr hm.symm), hpath]
    simp

/-- C3 witness: the amended budget property at a concrete fresh 2-step run. -/
theorem training_loop_budget_witness :
    (load_or_train_bert_clf (exampleParams 2) fsEmpty).ranTraining = true ∧
    (load_or_train_bert_clf (exampleParams 2) fsEmpty).optSteps = (exampleParams 2).steps ∧
    (load_or_train_bert_clf (exampleParams 2) fsEmpty).modelMode = Mode.eval ∧
    gateCkptPath (exampleParams 2) ∈ (load_or_train_bert_clf (exampleParams 2) fsEmpty).saved :=
  training_loop_budget (exampleParams 2) fsEmpty (by decide) rfl

/-- C4 counterexample: with a total step budget of 500 — fewer steps than the
factory's 1000 warmup steps — the schedule never reaches the configured rate
at the warmup boundary, and its rate at the final configured step is `1/2` of
the configured rate rather than 0. -/
theorem get_optimizer_short_budget :
    get_optimizer "adam" 1 0 500 defaultWarmup
      = .ok ({ algo := .adam, lr := 1, weightDecay := 0 },
             { baseLr := 1, warmup := defaultWarmup, totalSteps := 500 }) ∧
    (Schedule.mk 1 defaultWarmup 500).lrAt defaultWarmup ≠ 1 ∧
    (Schedule.mk 1 defaultWarmup 500).lrAt 500 ≠ 0 := by
  refine ⟨rfl, ?_, ?_⟩ <;>
    norm_num [Schedule.lrAt, linearWarmupLambda, defaultWarmup]

/-- C4 (amended): for every supported selector, every positive learning rate,
and every total step budget strictly larger than the factory's 1000 warmup
steps, `get_optimizer` returns a schedule whose rate is 0 at step 0, strictly
increases through the warmup window, equals the configured rate at the warmup
boundary, strictly decreases afterwards, and is 0 at the final configured
step. -/
theorem get_optimizer_schedule_shape (name : String) (lr decay : ℚ) (T : Nat)
    (opt : Optimizer) (sche : Schedule)
    (hname : name = "adam" ∨ name = "sgd" ∨ name = "adamw")
    (hlr : 0 < lr) (hT : defaultWarmup < T)
    (hok : get_optimizer name lr decay T defaultWarmup = .ok (opt, sche)) :
    sche.lrAt 0 = 0 ∧
    (∀ a b : Nat, a < b → b ≤ defaultWarmup → sche.lrAt a < sche.lrAt b) ∧
    sche.lrAt defaultWarmup = lr ∧
    (∀ a b : Nat, defaultWarmup ≤ a → a < b → b ≤ T → sche.lrAt b < sche.lrAt a) ∧
    sche.lrAt T = 0 := by
  have hw : 0 < defaultWarmup := by decide
  have hsche : sche = ⟨lr, defaultWarmup, T⟩ := by
    unfold get_optimizer at hok
    rcases hname with h | h | h <;> subst h
    · rw [if_pos rfl] at hok
      simp only [Except.ok.injEq, Prod.mk.injEq] at hok
      exact hok.2.symm
    · rw [if_neg (by decide), if_pos rfl] at hok
      simp only [Except.ok.injEq, Prod.mk.injEq] at hok
      exact hok.2.symm
    · rw [if_neg (by decide), if_neg (by decide), if_pos rfl] at hok
      simp only [Except.ok.injEq, Prod.mk.injEq] at hok
      exact hok.2.symm
  subst hsche
  exact schedule_shape lr defaultWarmup T hw hT hlr

/-- C4 witness: the amended schedule shape for the "adam" selector, unit rate,
and a 2000-step budget. -/
theorem get_optimizer_schedule_shape_witness :
    (Schedule.mk 1 defaultWarmup 2000).lrAt 0 = 0 ∧
    (∀ a b : Nat, a < b → b ≤ defaultWarmup →
      (Schedule.mk 1 defaultWarmup 2000).lrAt a < (Schedule.mk 1 defaultWarmup 2000).lrAt b) ∧
    (Schedule.mk 1 defaultWarmup 2000).lrAt defaultWarmup = 1 ∧
    (∀ a b : Nat, defaultWarmup ≤ a → a < b → b ≤ 2000 →
      (Schedule.mk 1 defaultWarmup 2000).lrAt b < (Schedule.mk 1 defaultWarmup 2000).lrAt a) ∧
    (Schedule.mk 1 defaultWarmup 2000).lrAt 2000 = 0 :=
  get_optimizer_schedule_shape "adam" 1 0 2000
    { algo := .adam, lr := 1, weightDecay := 0 } (Schedule.mk 1 defaultWarmup 2000)
    (Or.inl rfl) (by norm_num) (by decide) rfl

/-- C5 counterexample: with summary period 2 and per-step losses 5 (step 1)
and 1 (step 2), the value flushed for `clf_train/loss` at step 2 is the
current step's loss 1 — neither the mean nor the sum of the losses accumulated
since the previous flush — so the loop does not flush a running training
loss. -/
theorem summary_flushes_current_loss :
    (⟨.clfTrainLoss, 2, (1 : ℚ)⟩ : SummaryEntry)
      ∈ (load_or_train_bert_clf (exampleParams 2) fsEmpty).summary ∧
    (⟨.clfTrainLoss, 2, ((5 : ℚ) + 1) / 2⟩ : SummaryEntry)
      ∉ (load_or_train_bert_clf (exampleParams 2) fsEmpty).summary ∧
    (⟨.clfTrainLoss, 2, (5 : ℚ) + 1⟩ : SummaryEntry)
      ∉ (load_or_train_bert_clf (exampleParams 2) fsEmpty).summary := by
  have hs : (load_or_train_bert_clf (exampleParams 2) fsEmpty).summary
      = (trainIter (exampleParams 2) (max 1 (exampleParams 2).steps)).summary := by
    show (trainLoopResult (exampleParams 2)).summary = _
    rw [trainLoopResult_eq_iterate]
  have hmax : max 1 (exampleParams 2).steps = 2 := by decide
  have e1 : trainIter (exampleParams 2) 2
      = trainBody (exampleParams 2) (trainBody (exampleParams 2) trainLoopInit) := by
    rw [trainIter_succ, trainIter_succ]
    rfl
  have hlist : (trainIter (exampleParams 2) 2).summary
      = [⟨.clfTrainLoss, 2, 1⟩, ⟨.clfTrainErrorRate, 2, 0⟩] := by
    rw [e1, trainBody_summary, trainBody_summary]
    simp only [trainBody_globalStep, trainBody_correctTrain, trainBody_countTrain,
      trainLoopInit]
    norm_num [exampleParams]
  refine ⟨?_, ?_, ?_⟩ <;> rw [hs, hmax, hlist] <;>
    norm_num [SummaryEntry.mk.injEq]

/-- C5 (amended): on every training step `s` that is a multiple of the summary
period, the loop flushes the current step's training loss and the running
error rate `1 - correct/count` accumulated over all steps since the previous
flush, both keyed by the global step, and resets the running correct/total
counters to zero. -/
theorem training_summary_flush (p : TrainParams) (s : Nat)
    (hs : 1 ≤ s) (hmod : s % p.periodSummary = 0) (hP : 0 < p.periodSummary)
    (hrun : s ≤ max 1 p.steps) :
    (⟨.clfTrainLoss, s, p.trainLoss s⟩ : SummaryEntry) ∈ (trainLoopResult p).summary ∧
    (⟨.clfTrainErrorRate, s,
        1 - ((∑ i in Finset.Ioc (s - p.periodSummary) s, p.trainCorrect i : ℕ) : ℚ)
          / ((∑ i in Finset.Ioc (s - p.periodSummary) s, p.trainBs i : ℕ) : ℚ)⟩ :
      SummaryEntry) ∈ (trainLoopResult p).summary ∧
    (trainIter p s).correctTrain = 0 ∧ (trainIter p s).countTrain = 0 := by
  have h1 := flush_entries_mem p s hs hmod hP
  rw [trainLoopResult_eq_iterate]
  refine ⟨summary_mem_trainIter_le p _ hrun h1.1,
          summary_mem_trainIter_le p _ hrun h1.2, ?_, ?_⟩
  · rw [(trainIter_counters p s).1, hmod]
    simp
  · rw [(trainIter_counters p s).2, hmod]
    simp

/-- C5 witness: the flush at step 2 of the concrete 2-step run. -/
theorem training_summary_flush_witness :
    (⟨.clfTrainLoss, 2, (exampleParams 2).trainLoss 2⟩ : SummaryEntry)
      ∈ (trainLoopResult (exampleParams 2)).summary ∧
    (⟨.clfTrainErrorRate, 2,
        1 - ((∑ i in Finset.Ioc (2 - (exampleParams 2).periodSummary) 2,
                (exampleParams 2).trainCorrect i : ℕ) : ℚ)
          / ((∑ i in Finset.Ioc (2 - (exampleParams 2).periodSummary) 2,
                (exampleParams 2).trainBs i : ℕ) : ℚ)⟩ : SummaryEntry)
      ∈ (trainLoopResult (exampleParams 2)).summary ∧
    (trainIter (exampleParams 2) 2).correctTrain = 0 ∧
    (trainIter (exampleParams 2) 2).countTrain = 0 :=
  training_summary_flush (exampleParams 2) 2 (by decide) (by decide) (by decide) (by decide)

/-- C6: on a live fine-tune session, a `robust_tune_step` batch whose `text1`
presence is ragged — the number of `text1` fields is neither zero nor the
number of `text0` fields — fails with the data-consistency error, and the
model parameters are unchanged by the call. -/
theorem robust_tune_step_inconsistent (f : Facade) (l : List DataRecord)
    (hopt : f.fineTuneOpt.isSome = true) (hsche : f.fineTuneSche.isSome = true)
    (hne : (l.filterMap (fun r => r.text1)).length ≠ 0)
    (hmix : (l.filterMap (fun r => r.text1)).length ≠ l.length) :
    (robust_tune_step f l).2 = .error (.runtime "data records are not consistent.") ∧
    (robust_tune_step f l).1.paramsVersion = f.paramsVersion := by
  obtain ⟨o, ho⟩ := Option.isSome_iff_exists.mp hopt
  obtain ⟨sc, hsc⟩ := Option.isSome_iff_exists.mp hsche
  unfold robust_tune_step
  rw [ho, hsc]
  rw [if_neg (by simp)]
  rw [if_neg hne]
  rw [if_pos (by rw [List.length_map]; exact hmix)]
  exact ⟨rfl, rfl⟩

/-- C6 witness: the 3-record batch whose middle record lacks `text1`, on a
facade whose fine-tune pair is live. -/
theorem robust_tune_step_inconsistent_witness :
    (robust_tune_step facadeTuned mixedBatch).2
      = .error (.runtime "data records are not consistent.") ∧
    (robust_tune_step facadeTuned mixedBatch).1.paramsVersion
      = facadeTuned.paramsVersion :=
  robust_tune_step_inconsistent facadeTuned mixedBatch (by decide) (by decide)
    (by decide) (by decide)

/-- C7: `load_or_train_bert_clf` resolves the canonical checkpoint path from
(dataset name, defense mode, model family, step count) and the existence of
that path alone decides load-vs-train: if it exists, the model is loaded from
it, set to eval mode, and returned with no training step executed; if it does
not exist, the training loop runs (at least one optimizer step executes). -/
theorem checkpoint_gate (p : TrainParams) (fs : Str → Bool) :
    (fs (gateCkptPath p) = true →
      load_or_train_bert_clf p fs
        = { ranTraining := false, loadedFrom := some (gateCkptPath p),
            modelMode := Mode.eval, optSteps := 0, summary := [], saved := [] }) ∧
    (fs (gateCkptPath p) = false →
      (load_or_train_bert_clf p fs).ranTraining = true ∧
      (load_or_train_bert_clf p fs).loadedFrom = none ∧
      1 ≤ (load_or_train_bert_clf p fs).optSteps) := by
  constructor
  · intro h
    unfold load_or_train_bert_clf
    rw [h]
    rfl
  · intro h
    have hgate : load_or_train_bert_clf p fs
        = { ranTraining := true, loadedFrom := none, modelMode := Mode.eval,
            optSteps := (trainLoopResult p).optSteps,
            summary := (trainLoopResult p).summary,
            saved := (trainLoopResult p).saved } := by
      unfold load_or_train_bert_clf
      rw [h]
      rfl
    rw [hgate]
    refine ⟨rfl, rfl, ?_⟩
    rw [trainLoopResult_eq_iterate, trainIter_optSteps]
    exact le_max_left 1 p.steps

/-- C7 witness: the gate at a concrete parameter set, on a filesystem where
the checkpoint exists and on one where it does not. -/
theorem checkpoint_gate_witness :
    load_or_train_bert_clf (exampleParams 2) fsFull
      = { ranTraining := false, loadedFrom := some (gateCkptPath (exampleParams 2)),
          modelMode := Mode.eval, optSteps := 0, summary := [], saved := [] } ∧
    ((load_or_train_bert_clf (exampleParams 2) fsEmpty).ranTraining = true ∧
     (load_or_train_bert_clf (exampleParams 2) fsEmpty).loadedFrom = none ∧
     1 ≤ (load_or_train_bert_clf (exampleParams 2) fsEmpty).optSteps) :=
  ⟨(checkpoint_gate (exampleParams 2) fsFull).1 rfl,
   (checkpoint_gate (exampleParams 2) fsEmpty).2 rfl⟩

/-- C8: calling `robust_tune_init` while a fine-tune optimizer/schedule pair
is already live fails with the already-initialized lifecycle error, and the
facade state — in particular the previously created pair — is unchanged. -/
theorem robust_tune_init_second_fails (f : Facade) (name : String)
    (lr decay : ℚ) (steps : Nat)
    (hopt : f.fineTuneOpt.isSome = true) (hsche : f.fineTuneSche.isSome = true) :
    robust_tune_init f name lr decay steps
      = (f, .error (.runtime "fine tuning has been initialized.")) := by
  unfold robust_tune_init
  rw [if_pos (Or.inl hsche)]

/-- C8 witness: a second `robust_tune_init` on the facade produced by a first
successful `robust_tune_init`. -/
theorem robust_tune_init_second_fails_witness :
    robust_tune_init facadeTuned "sgd" 2 0 5
      = (facadeTuned, .error (.runtime "fine tuning has been initialized.")) :=
  robust_tune_init_second_fails facadeTuned "sgd" 2 0 5 (by decide) (by decide)

/-- C9: `robust_tune_step` switches the model to train mode before validating
batch consistency: on a live session, every batch with ragged `text1` presence
leaves the model in train mode on exit together with the consistency error,
while every successful call exits with the model in eval mode. -/
theorem robust_tune_step_mode (f : Facade) (l : List DataRecord)
    (hopt : f.fineTuneOpt.isSome = true) (hsche : f.fineTuneSche.isSome = true) :
    ((l.filterMap (fun r => r.text1)).length ≠ 0 →
      (l.filterMap (fun r => r.text1)).length ≠ l.length →
      (robust_tune_step f l).1.modelMode = Mode.train ∧
      (robust_tune_step f l).2 = .error (.runtime "data records are not consistent.")) ∧
    (∀ out : TuneStepOutcome, (robust_tune_step f l).2 = .ok out →
      (robust_tune_step f l).1.modelMode = Mode.eval) := by
  obtain ⟨o, ho⟩ := Option.isSome_iff_exists.mp hopt
  obtain ⟨sc, hsc⟩ := Option.isSome_iff_exists.mp hsche
  constructor
  · intro hne hmix
    unfold robust_tune_step
    rw [ho, hsc]
    rw [if_neg (by simp)]
    rw [if_neg hne]
    rw [if_pos (by rw [List.length_map]; exact hmix)]
    exact ⟨rfl, rfl⟩
  · intro out hout
    unfold robust_tune_step at hout ⊢
    rw [ho, hsc] at hout ⊢
    rw [if_neg (by simp)] at hout ⊢
    by_cases h0 : (l.filterMap (fun r => r.text1)).length = 0
    · rw [if_pos h0]
    · rw [if_neg h0] at hout ⊢
      by_cases hlen : (l.filterMap (fun r => r.text1)).length
          ≠ (l.map (fun r => r.text0)).length
      · rw [if_pos hlen] at hout
        exact absurd hout (by simp)
      · rw [if_neg hlen]

/-- C9 witness: the ragged batch exits in train mode with the consistency
error; a consistent single-field batch exits in eval mode. -/
theorem robust_tune_step_mode_witness :
    ((robust_tune_step facadeTuned mixedBatch).1.modelMode = Mode.train ∧
      (robust_tune_step facadeTuned mixedBatch).2
        = .error (.runtime "data records are not consistent.")) ∧
    (robust_tune_step facadeTuned [recSingle]).1.modelMode = Mode.eval :=
  ⟨(robust_tune_step_mode facadeTuned mixedBatch (by decide) (by decide)).1
      (by decide) (by decide),
   (robust_tune_step_mode facadeTuned [recSingle] (by decide) (by decide)).2
      { tokenization := .single ["a movie review"], labels := [1] } (by rfl)⟩

/-- C10: with dataset name, defense tag, and model family fixed, the resolved
checkpoint directory depends on the step count only through integer division
by 1000 — two step counts resolve to the same directory iff their quotients by
1000 agree — and consequently every periodic mid-run save at a step in the
same thousand-block as the total step budget writes exactly the final
checkpoint path that gates load-vs-train. -/
theorem ckpt_path_thousand_block (root : Str) (e : Bool) (d m : Str) (p : TrainParams) :
    (∀ s t : Nat, ckptPathOf root e d m s = ckptPathOf root e d m t ↔ s / 1000 = t / 1000) ∧
    (∀ st : LoopState, (st.globalStep + 1) % p.periodSave = 0 →
      (st.globalStep + 1) / 1000 = p.steps / 1000 →
      (trainBody p st).saved = st.saved ++ [gateCkptPath p]) := by
  constructor
  · exact fun s t => ckptPathOf_eq_iff root e d m s t
  · intro st hsave hblk
    rw [trainBody_saved, if_pos (Or.inl hsave)]
    have hpath : ckptPathOf p.root p.enableSem p.datasetName p.modelInit (st.globalStep + 1)
        = gateCkptPath p :=
      (ckptPathOf_eq_iff p.root p.enableSem p.datasetName p.modelInit
        (st.globalStep + 1) p.steps).mpr hblk
    rw [hpath]

/-- C10 witness: two step counts in the same thousand-block share a path, two
in different blocks do not, and a concrete mid-run save in the budget's block
writes the gate path. -/
theorem ckpt_path_thousand_block_witness :
    (ckptPathOf (codes "root") false (codes "ag") (codes "bert-base-uncased") 1500
      = ckptPathOf (codes "root") false (codes "ag") (codes "bert-base-uncased") 1999) ∧
    ¬ (ckptPathOf (codes "root") false (codes "ag") (codes "bert-base-uncased") 1500
      = ckptPathOf (codes "root") false (codes "ag") (codes "bert-base-uncased") 2000) ∧
    (trainBody exampleParamsSave exampleState).saved
      = exampleState.saved ++ [gateCkptPath exampleParamsSave] := by
  refine ⟨?_, ?_, ?_⟩
  · exact (ckpt_path_thousand_block (codes "root") false (codes "ag")
      (codes "bert-base-uncased") exampleParamsSave).1 1500 1999 |>.mpr (by decide)
  · intro h
    have := (ckpt_path_thousand_block (codes "root") false (codes "ag")
      (codes "bert-base-uncased") exampleParamsSave).1 1500 2000 |>.mp h
    exact absurd this (by decide)
  · exact (ckpt_path_thousand_block (codes "root") false (codes "ag")
      (codes "bert-base-uncased") exampleParamsSave).2 exampleState (by decide) (by decide)

end Fibber
